import Mathlib

/-!
Shallow embedding of the address derivation and encoding core of
wallet-crypto (src/wallet-crypto/src/address.rs), together with the CBOR
primitive writers that module calls, and proofs of the specified
properties. Buffers are lists of byte values (Nat, kept below 256 where
the source type is u8); every encoder appends to the buffer it receives,
mirroring the push style of the source.
-/

set_option maxRecDepth 16384

namespace Cardano

/-- Modelled from the spec: the primitive codec library (RFC 7049 CBOR
header writer, called write_length_encoding in the source but not under
src). A header is the major type in the top three bits and the length or
value in the remaining bits, with additional info 24, 25, 26 or 27
announcing 1, 2, 4 or 8 extra bytes, big endian. -/
def writeLengthEncoding (major : Nat) (nb : Nat) : List Nat :=
  if nb < 24 then [major * 32 + nb]
  else if nb < 256 then [major * 32 + 24, nb]
  else if nb < 65536 then [major * 32 + 25, nb / 256 % 256, nb % 256]
  else if nb < 4294967296 then
    [major * 32 + 26, nb / 2 ^ 24 % 256, nb / 2 ^ 16 % 256, nb / 2 ^ 8 % 256, nb % 256]
  else
    [major * 32 + 27, nb / 2 ^ 56 % 256, nb / 2 ^ 48 % 256, nb / 2 ^ 40 % 256,
      nb / 2 ^ 32 % 256, nb / 2 ^ 24 % 256, nb / 2 ^ 16 % 256, nb / 2 ^ 8 % 256, nb % 256]

/-- Modelled from the spec: emit_uint of the primitive codec (major type 0). -/
def cbor_uint (v : Nat) (buf : List Nat) : List Nat :=
  buf ++ writeLengthEncoding 0 v

/-- Modelled from the spec: emit_bytestring of the primitive codec (major
type 2 header with the byte count, then the raw bytes). -/
def cbor_bs (bs : List Nat) (buf : List Nat) : List Nat :=
  buf ++ writeLengthEncoding 2 bs.length ++ bs

/-- Modelled from the spec: emit_array_header of the primitive codec
(major type 4). -/
def cbor_array_start (nb : Nat) (buf : List Nat) : List Nat :=
  buf ++ writeLengthEncoding 4 nb

/-- Modelled from the spec: emit_map_header of the primitive codec
(major type 5). -/
def cbor_map_start (nb : Nat) (buf : List Nat) : List Nat :=
  buf ++ writeLengthEncoding 5 nb

/-- Modelled from the spec: emit_tag of the primitive codec (major type 6). -/
def cbor_tag (tag : Nat) (buf : List Nat) : List Nat :=
  buf ++ writeLengthEncoding 6 tag

/-- Big endian bytes of a 32 bit value. -/
def u32be (v : Nat) : List Nat :=
  [v / 2 ^ 24 % 256, v / 2 ^ 16 % 256, v / 2 ^ 8 % 256, v % 256]

/-- Modelled from the spec: the write_u32 primitive used for the trailing
checksum. The reference byte vector of the spec (section 8) and the
vector of test_encode_extended_address in src both end in
1a 89 a5 93 71 for checksum 0x89a59371, so this primitive emits the CBOR
32 bit unsigned integer form: the marker byte 0x1a followed by the four
big endian bytes of the value. -/
def write_u32 (v : Nat) (buf : List Nat) : List Nat :=
  buf ++ 0x1a :: u32be v

/-- Variant framing helper of hs_cbor: array header of length
nb_values + 1 followed by the tag as an unsigned integer. -/
def sumtype_start (tag : Nat) (nb_values : Nat) (buf : List Nat) : List Nat :=
  cbor_uint tag (cbor_array_start (nb_values + 1) buf)

/-- The ToCBOR instance for Option of the source: None is the zero field
variant with tag 0, Some is the transparent encoding of the payload. -/
def encodeOption {α : Type} (enc : α → List Nat → List Nat) : Option α → List Nat → List Nat
  | none, buf => sumtype_start 0 0 buf
  | some t, buf => enc t buf

/-- hs_cbor serialize: run an encoder on the empty buffer. -/
def serialize {α : Type} (enc : α → List Nat → List Nat) (t : α) : List Nat :=
  enc t []

/-- The external hash and checksum primitives, kept abstract as the spec
directs (black box functions with documented output sizes): a 256 bit
hash, a 224 bit hash whose output bytes are genuine bytes, and a CRC-32
returning a 32 bit value. -/
structure Prims where
  sha3_256 : List Nat → List Nat
  blake2b224 : List Nat → List Nat
  crc32 : List Nat → Nat
  sha3_len : ∀ b, (sha3_256 b).length = 32
  blake_len : ∀ b, (blake2b224 b).length = 28
  blake_bytes : ∀ b, ∀ x ∈ blake2b224 b, x < 256
  crc32_lt : ∀ b, crc32 b < 2 ^ 32

/-- An extended public key, treated as an opaque byte blob (the spec puts
the key derivation subsystem out of scope). -/
def XPub := List Nat

/-- hs_cbor_util cbor_xpub: a public key encodes as a plain byte string. -/
def cbor_xpub (pubk : XPub) (buf : List Nat) : List Nat :=
  cbor_bs pubk buf

/-- DigestBlake2b of the source: a 28 byte value (the Rust field type is
the fixed array u8 times 28, carried here as a list with its two facts). -/
structure DigestBlake2b where
  bytes : List Nat
  len28 : bytes.length = 28
  lt256 : ∀ x ∈ bytes, x < 256

/-- DigestBlake2b new: the sha3 256 digest of the input feeds the blake2b
224 digest, whose 28 bytes are the result. -/
def DigestBlake2b.new (P : Prims) (buf : List Nat) : DigestBlake2b :=
  ⟨P.blake2b224 (P.sha3_256 buf), P.blake_len _, P.blake_bytes _⟩

/-- DigestBlake2b from_bytes: wrap 28 given bytes. -/
def DigestBlake2b.from_bytes (b : List Nat) (h28 : b.length = 28)
    (hb : ∀ x ∈ b, x < 256) : DigestBlake2b :=
  ⟨b, h28, hb⟩

/-- The per byte output of the Display loop of DigestBlake2b: a byte
below 0x10 is written as the character 0 followed by its short lowercase
hex form, any other byte as its short lowercase hex form alone. -/
def byteHexChars (b : Nat) : List Char :=
  if b < 0x10 then '0' :: Nat.toDigits 16 b else Nat.toDigits 16 b

/-- Display of DigestBlake2b: the per byte chunks written in order. -/
def DigestBlake2b.display (d : DigestBlake2b) : String :=
  String.mk (d.bytes.foldr (fun b acc => byteHexChars b ++ acc) [])

/-- Recogniser for the sixteen lowercase hex characters: a decimal digit
or a letter between a and f. -/
def isHexLc (c : Char) : Bool :=
  (decide ('0' ≤ c) && decide (c ≤ '9')) || (decide ('a' ≤ c) && decide (c ≤ 'f'))

/-- ToCBOR for DigestBlake2b: the 28 bytes as a byte string. -/
def DigestBlake2b.encode (d : DigestBlake2b) (buf : List Nat) : List Nat :=
  cbor_bs d.bytes buf

/-- The address kind discriminator. -/
inductive AddrType where
  | ATPubKey
  | ATScript
  | ATRedeem

/-- AddrType to_byte: the protocol tag of each kind. -/
def AddrType.to_byte : AddrType → Nat
  | .ATPubKey => 0
  | .ATScript => 1
  | .ATRedeem => 2

/-- ToCBOR for AddrType: the tag as an unsigned integer. -/
def AddrType.encode (t : AddrType) (buf : List Nat) : List Nat :=
  cbor_uint t.to_byte buf

/-- StakeholderId of the source: the digest of a public key. -/
structure StakeholderId where
  digest : DigestBlake2b

/-- StakeholderId new: digest of the byte string encoding of the key. -/
def StakeholderId.new (P : Prims) (pubk : XPub) : StakeholderId :=
  ⟨DigestBlake2b.new P (cbor_xpub pubk [])⟩

/-- ToCBOR for StakeholderId: delegates to the inner digest. -/
def StakeholderId.encode (s : StakeholderId) (buf : List Nat) : List Nat :=
  s.digest.encode buf

/-- Display for StakeholderId: delegates to the inner digest. -/
def StakeholderId.display (s : StakeholderId) : String :=
  s.digest.display

/-- The stake distribution sum type. -/
inductive StakeDistribution where
  | BootstrapEraDistr
  | SingleKeyDistr (si : StakeholderId)

def STAKE_DISTRIBUTION_TAG_BOOTSTRAP : Nat := 1

def STAKE_DISTRIBUTION_TAG_SINGLEKEY : Nat := 0

def StakeDistribution.new_era : StakeDistribution := .BootstrapEraDistr

def StakeDistribution.new_single_stakeholder (si : StakeholderId) : StakeDistribution :=
  .SingleKeyDistr si

def StakeDistribution.new_single_key (P : Prims) (pubk : XPub) : StakeDistribution :=
  .SingleKeyDistr (StakeholderId.new P pubk)

/-- ToCBOR for StakeDistribution: the variant framing is built in a fresh
buffer which is then emitted as a byte string. -/
def StakeDistribution.encode : StakeDistribution → List Nat → List Nat
  | .BootstrapEraDistr, buf =>
      cbor_bs (sumtype_start STAKE_DISTRIBUTION_TAG_BOOTSTRAP 0 []) buf
  | .SingleKeyDistr si, buf =>
      cbor_bs (si.encode (sumtype_start STAKE_DISTRIBUTION_TAG_SINGLEKEY 1 [])) buf

/-- The opaque derivation path payload. -/
structure HDAddressPayload where
  bytes : List Nat

def HDAddressPayload.new (buf : List Nat) : HDAddressPayload := ⟨buf⟩

/-- ToCBOR for HDAddressPayload: a byte string wrapped again as a byte
string (the double wrap of the source). -/
def HDAddressPayload.encode (h : HDAddressPayload) (buf : List Nat) : List Nat :=
  cbor_bs (cbor_bs h.bytes []) buf

/-- The address attribute bundle. -/
structure Attributes where
  derivation_path : Option HDAddressPayload
  stake_distribution : StakeDistribution

def ATTRIBUTE_NAME_TAG_STAKE : Nat := 0

def ATTRIBUTE_NAME_TAG_DERIVATION : Nat := 1

def Attributes.new_era : Attributes :=
  ⟨none, .BootstrapEraDistr⟩

def Attributes.new_single_key (P : Prims) (pubk : XPub)
    (hdap : Option HDAddressPayload) : Attributes :=
  ⟨hdap, StakeDistribution.new_single_key P pubk⟩

/-- ToCBOR for Attributes: a map header of size 2, key 0 with the stake
distribution, then key 1 with the optional derivation path. -/
def Attributes.encode (a : Attributes) (buf : List Nat) : List Nat :=
  encodeOption HDAddressPayload.encode a.derivation_path
    (cbor_uint ATTRIBUTE_NAME_TAG_DERIVATION
      (a.stake_distribution.encode
        (cbor_uint ATTRIBUTE_NAME_TAG_STAKE (cbor_map_start 2 buf))))

/-- An opaque script, a reserved placeholder in the source. -/
def Script := List Nat

/-- An opaque redeem key, a reserved placeholder in the source. -/
def RedeemPublicKey := List Nat

def SPENDING_DATA_TAG_PUBKEY : Nat := 0

def SPENDING_DATA_TAG_SCRIPT : Nat := 1

def SPENDING_DATA_TAG_REDEEM : Nat := 2

/-- The spending data sum type. -/
inductive SpendingData where
  | PubKeyASD (xpub : XPub)
  | ScriptASD (s : Script)
  | RedeemASD (k : RedeemPublicKey)

/-- ToCBOR for SpendingData. The PubKey branch emits the tag 0 variant
framing and the key byte string. The Script and Redeem branches of the
source invoke the abort macro of Rust, which unwinds without returning
any value and without touching the buffer; that abort is modelled as the
none result here. -/
def SpendingData.encode : SpendingData → List Nat → Option (List Nat)
  | .PubKeyASD xpub, buf =>
      some (cbor_xpub xpub (sumtype_start SPENDING_DATA_TAG_PUBKEY 1 buf))
  | .ScriptASD _, _ => none
  | .RedeemASD _, _ => none

/-- Addr of the source: the derived address identifier. -/
structure Addr where
  digest : DigestBlake2b

/-- ToCBOR for Addr: delegates to the inner digest. -/
def Addr.encode (a : Addr) (buf : List Nat) : List Nat :=
  a.digest.encode buf

/-- Display for Addr: delegates to the inner digest. -/
def Addr.display (a : Addr) : String :=
  a.digest.display

/-- The generic triple ToCBOR instance at the types used by Addr new:
array header of length 3 then each component in order; the abort of the
spending data component propagates. -/
def encodeAddressTuple (t : AddrType) (sd : SpendingData) (a : Attributes)
    (buf : List Nat) : Option (List Nat) :=
  (sd.encode (t.encode (cbor_array_start 3 buf))).map a.encode

/-- Addr new: CBOR encode the kind first triple then digest it. -/
def Addr.new (P : Prims) (addr_type : AddrType) (sd : SpendingData)
    (attrs : Attributes) : Option Addr :=
  (encodeAddressTuple addr_type sd attrs []).map fun buff => ⟨DigestBlake2b.new P buff⟩

/-- Addr from_bytes: wrap 28 given bytes. -/
def Addr.from_bytes (b : List Nat) (h28 : b.length = 28)
    (hb : ∀ x ∈ b, x < 256) : Addr :=
  ⟨DigestBlake2b.from_bytes b h28 hb⟩

/-- The complete extended address record. -/
structure ExtendedAddr where
  addr : Addr
  attributes : Attributes
  addr_type : AddrType

/-- ExtendedAddr new: derive the identifier and bundle it with the kind
and the attributes. -/
def ExtendedAddr.new (P : Prims) (ty : AddrType) (sd : SpendingData)
    (attrs : Attributes) : Option ExtendedAddr :=
  (Addr.new P ty sd attrs).map fun a => ⟨a, attrs, ty⟩

/-- ToCBOR for ExtendedAddr: the identifier first triple as an array of
length 3. -/
def ExtendedAddr.encode (ea : ExtendedAddr) (buf : List Nat) : List Nat :=
  ea.addr_type.encode (ea.attributes.encode (ea.addr.encode (cbor_array_start 3 buf)))

/-- hs_cbor_util encode_with_crc32: serialize the value, wrap it as a tag
24 byte string inside an array of length 2, then append the checksum of
the serialized bytes. -/
def encode_with_crc32 {α : Type} (P : Prims) (enc : α → List Nat → List Nat)
    (t : α) (buf : List Nat) : List Nat :=
  write_u32 (P.crc32 (serialize enc t))
    (cbor_bs (serialize enc t) (cbor_tag 24 (cbor_array_start 2 buf)))

/-- ExtendedAddr to_bytes: the checksummed envelope on a fresh buffer. -/
def ExtendedAddr.to_bytes (P : Prims) (ea : ExtendedAddr) : List Nat :=
  encode_with_crc32 P ExtendedAddr.encode ea []

/-- Display for ExtendedAddr: the source implementation writes nothing
and returns Ok. -/
def ExtendedAddr.display (_ : ExtendedAddr) : String := ""

/-- Concrete primitive bundle for ground evaluations. -/
def prims0 : Prims where
  sha3_256 := fun _ => List.replicate 32 0
  blake2b224 := fun _ => List.replicate 28 0
  crc32 := fun _ => 0
  sha3_len := fun _ => by simp
  blake_len := fun _ => by simp
  blake_bytes := fun _ x hx => by
    rw [List.eq_of_mem_replicate hx]
    decide
  crc32_lt := fun _ => by norm_num

/-- A concrete public key blob. -/
def xp0 : XPub := [1, 2, 3]

/-- Concrete attributes: the bootstrap era bundle. -/
def attrs0 : Attributes := Attributes.new_era

/-- A concrete all zero digest. -/
def digest0 : DigestBlake2b :=
  ⟨List.replicate 28 0, by decide, by decide⟩

/-- A concrete extended address built directly from its fields. -/
def ea0 : ExtendedAddr := ⟨⟨digest0⟩, attrs0, .ATPubKey⟩

/-- The inner serialized bytes of the concrete extended address. -/
def inner0 : List Nat := serialize ExtendedAddr.encode ea0

/-- C1: encoding the Script or the Redeem spending data variant does not
return a recoverable error value as the spec demands. The source invokes
the abort macro (modelled as the none result, with no bytes produced at
all), evaluated here at concrete inputs of both variants. -/
theorem spendingData_script_redeem_aborts :
    SpendingData.encode (.ScriptASD (List.replicate 32 0)) [] = none ∧
    SpendingData.encode (.RedeemASD (List.replicate 32 0)) [] = none :=
  ⟨rfl, rfl⟩

/-- C2 counterexample: the bootstrap era stake distribution does not
encode as an array header of length 2 followed by the bare tag 1: the
source wraps the framing in a byte string and uses array length 1. -/
theorem stakeDistribution_not_bare_array2 :
    StakeDistribution.encode .BootstrapEraDistr [] ≠
      cbor_uint STAKE_DISTRIBUTION_TAG_BOOTSTRAP (cbor_array_start 2 []) := by
  decide

/-- C2 amended: a stake distribution encodes as a CBOR byte string whose
content is an array header of length 1 plus the number of payload fields
followed by the tag (0 for SingleKey giving the 0x82 header, 1 for
BootstrapEra giving the 0x81 header) followed, for SingleKey, by the
stakeholder identifier encoding. -/
theorem stakeDistribution_encode_bytestring_wrapped (si : StakeholderId) (buf : List Nat) :
    StakeDistribution.encode .BootstrapEraDistr buf =
      buf ++ cbor_bs [0x81, 0x01] [] ∧
    StakeDistribution.encode (.SingleKeyDistr si) buf =
      buf ++ cbor_bs ([0x82, 0x00] ++ serialize StakeholderId.encode si) [] := by
  constructor
  · simp [StakeDistribution.encode, STAKE_DISTRIBUTION_TAG_BOOTSTRAP, sumtype_start,
      cbor_uint, cbor_array_start, cbor_bs, writeLengthEncoding, List.append_assoc]
  · simp [StakeDistribution.encode, STAKE_DISTRIBUTION_TAG_SINGLEKEY, sumtype_start,
      StakeholderId.encode, DigestBlake2b.encode, serialize,
      cbor_uint, cbor_array_start, cbor_bs, writeLengthEncoding, List.append_assoc]

/-- C3: for any element encoder, the optional value none encodes as the
array header of length 1 followed by the unsigned integer 0, and some x
encodes exactly as x itself with no extra wrapping. -/
theorem optionEncode_asymmetry {α : Type} (enc : α → List Nat → List Nat) (buf : List Nat) :
    encodeOption enc none buf = buf ++ [0x81, 0x00] ∧
    ∀ x : α, encodeOption enc (some x) buf = enc x buf := by
  constructor
  · simp [encodeOption, sumtype_start, cbor_uint, cbor_array_start,
      writeLengthEncoding, List.append_assoc]
  · intro x
    rfl

/-- C10: the public display formatting of an extended address writes no
characters at all: the source Display implementation only returns Ok. -/
theorem extendedAddr_display_empty (ea : ExtendedAddr) :
    ExtendedAddr.display ea = "" :=
  rfl

/-- C4 counterexample: at a concrete extended address and concrete
primitives the envelope does not end in the checksum as a raw 4 byte big
endian integer: the source emits a marker byte 0x1a before the 4 bytes. -/
theorem envelope_checksum_not_raw_u32 :
    ExtendedAddr.to_bytes prims0 ea0 ≠
      cbor_array_start 2 [] ++ cbor_tag 24 [] ++ cbor_bs inner0 [] ++
        u32be (prims0.crc32 inner0) := by
  decide

/-- C4 amended: to_bytes produces the array header of length 2, the tag
marker 24, the byte string wrap of the inner bytes, then the CRC-32 of
the inner bytes as a CBOR 32 bit unsigned integer (the marker byte 0x1a
followed by the 4 big endian checksum bytes), where the inner bytes are
the encoding of the identifier first triple as an array of length 3. -/
theorem envelope_layout (P : Prims) (ea : ExtendedAddr) :
    ExtendedAddr.to_bytes P ea =
      cbor_array_start 2 [] ++ cbor_tag 24 [] ++
        cbor_bs (serialize ExtendedAddr.encode ea) [] ++
        0x1a :: u32be (P.crc32 (serialize ExtendedAddr.encode ea)) ∧
    serialize ExtendedAddr.encode ea =
      cbor_array_start 3 [] ++ serialize Addr.encode ea.addr ++
        serialize Attributes.encode ea.attributes ++
        serialize AddrType.encode ea.addr_type := by
  constructor
  · simp [ExtendedAddr.to_bytes, encode_with_crc32, write_u32, cbor_bs, cbor_tag,
      cbor_array_start, List.append_assoc]
  · cases ea with
    | mk addr attrs ty =>
      cases attrs with
      | mk dp sd =>
        cases dp <;> cases sd <;>
          simp [serialize, ExtendedAddr.encode, Attributes.encode, encodeOption,
            HDAddressPayload.encode, StakeDistribution.encode, StakeholderId.encode,
            DigestBlake2b.encode, Addr.encode, AddrType.encode, sumtype_start,
            cbor_uint, cbor_map_start, cbor_array_start, cbor_bs,
            ATTRIBUTE_NAME_TAG_STAKE, ATTRIBUTE_NAME_TAG_DERIVATION,
            STAKE_DISTRIBUTION_TAG_BOOTSTRAP, STAKE_DISTRIBUTION_TAG_SINGLEKEY,
            List.append_assoc]

/-- C5: deriving an address from a PubKey spending data triple encodes
the kind first triple as an array of length 3 holding the kind encoding,
the spending data encoding (tag 0 variant framing then the key byte
string) and the attribute encoding, in that order, and digests the bytes
through the two stage chain; the digest is the address identifier. -/
theorem addr_derivation_layout (P : Prims) (ty : AddrType) (xp : XPub)
    (attrs : Attributes) :
    Addr.new P ty (.PubKeyASD xp) attrs =
      some ⟨DigestBlake2b.new P
        (cbor_array_start 3 [] ++ serialize AddrType.encode ty ++
          ([0x82, 0x00] ++ cbor_bs xp []) ++
          serialize Attributes.encode attrs)⟩ := by
  cases attrs with
  | mk dp sd =>
    cases dp <;> cases sd <;>
      simp [Addr.new, encodeAddressTuple, SpendingData.encode, serialize,
        Attributes.encode, encodeOption, HDAddressPayload.encode,
        StakeDistribution.encode, StakeholderId.encode, DigestBlake2b.encode,
        Addr.encode, AddrType.encode, cbor_xpub, sumtype_start, cbor_uint,
        cbor_map_start, cbor_array_start, cbor_bs, SPENDING_DATA_TAG_PUBKEY,
        ATTRIBUTE_NAME_TAG_STAKE, ATTRIBUTE_NAME_TAG_DERIVATION,
        STAKE_DISTRIBUTION_TAG_BOOTSTRAP, STAKE_DISTRIBUTION_TAG_SINGLEKEY,
        writeLengthEncoding, List.append_assoc]

/-- C6: the digest computation feeds the input to the 256 bit hash, feeds
that 32 byte intermediate to the 224 bit hash, and the 28 byte result is
the digest value. -/
theorem digest_two_stage (P : Prims) (buf : List Nat) :
    (DigestBlake2b.new P buf).bytes = P.blake2b224 (P.sha3_256 buf) ∧
    (P.sha3_256 buf).length = 32 ∧
    (DigestBlake2b.new P buf).bytes.length = 28 :=
  ⟨rfl, P.sha3_len buf, P.blake_len (P.sha3_256 buf)⟩

/-- C7: any extended address produced by the constructor carries exactly
the derived identifier of its kind, spending data and attributes, and
stores that kind and those attributes unchanged. -/
theorem extendedAddr_new_consistent (P : Prims) (ty : AddrType) (sd : SpendingData)
    (attrs : Attributes) (ea : ExtendedAddr)
    (h : ExtendedAddr.new P ty sd attrs = some ea) :
    some ea.addr = Addr.new P ty sd attrs ∧
    ea.attributes = attrs ∧ ea.addr_type = ty := by
  unfold ExtendedAddr.new at h
  cases hA : Addr.new P ty sd attrs with
  | none =>
      rw [hA] at h
      simp at h
  | some a =>
      rw [hA] at h
      injection h with h2
      subst h2
      exact ⟨rfl, rfl, rfl⟩

/-- C7 witness: the consistency fact evaluated at the concrete bundle. -/
theorem extendedAddr_new_consistent_witness :
    some ea0.addr = Addr.new prims0 .ATPubKey (.PubKeyASD xp0) attrs0 ∧
    ea0.attributes = attrs0 ∧ ea0.addr_type = .ATPubKey :=
  extendedAddr_new_consistent prims0 .ATPubKey (.PubKeyASD xp0) attrs0 ea0 rfl

/-- C9: address derivation is deterministic, and total on the PubKey
variant: equal triples give the same identifier, and the result is a
value rather than the propagated abort. -/
theorem addr_derivation_deterministic (P : Prims) (t1 t2 : AddrType)
    (x1 x2 : XPub) (a1 a2 : Attributes)
    (ht : t1 = t2) (hx : x1 = x2) (ha : a1 = a2) :
    Addr.new P t1 (.PubKeyASD x1) a1 = Addr.new P t2 (.PubKeyASD x2) a2 ∧
    ∃ addr, Addr.new P t1 (.PubKeyASD x1) a1 = some addr := by
  subst ht
  subst hx
  subst ha
  exact ⟨rfl, ⟨_, rfl⟩⟩

/-- C9 witness: determinism evaluated at the concrete bundle. -/
theorem addr_derivation_deterministic_witness :
    (Addr.new prims0 .ATPubKey (.PubKeyASD xp0) attrs0 =
      Addr.new prims0 .ATPubKey (.PubKeyASD xp0) attrs0) ∧
    ∃ addr, Addr.new prims0 .ATPubKey (.PubKeyASD xp0) attrs0 = some addr :=
  addr_derivation_deterministic prims0 .ATPubKey .ATPubKey xp0 xp0 attrs0 attrs0
    rfl rfl rfl

/-- Each byte below 256 renders as exactly two characters. -/
theorem byteHexChars_length : ∀ b, b < 256 → (byteHexChars b).length = 2 := by
  decide

/-- Each byte below 256 renders using only lowercase hex characters. -/
theorem byteHexChars_hex : ∀ b, b < 256 → (byteHexChars b).all isHexLc = true := by
  decide

/-- The rendered run of a byte list has twice its length. -/
theorem foldr_hex_length (l : List Nat) (h : ∀ b ∈ l, b < 256) :
    (l.foldr (fun b acc => byteHexChars b ++ acc) []).length = 2 * l.length := by
  induction l with
  | nil => rfl
  | cons b t ih =>
      simp only [List.foldr_cons, List.length_append, List.length_cons]
      rw [byteHexChars_length b (h b (List.mem_cons_self b t)),
        ih (fun x hx => h x (List.mem_cons_of_mem b hx))]
      ring

/-- The rendered run of a byte list uses only lowercase hex characters. -/
theorem foldr_hex_all (l : List Nat) (h : ∀ b ∈ l, b < 256) :
    (l.foldr (fun b acc => byteHexChars b ++ acc) []).all isHexLc = true := by
  induction l with
  | nil => rfl
  | cons b t ih =>
      simp only [List.foldr_cons, List.all_append]
      rw [byteHexChars_hex b (h b (List.mem_cons_self b t)),
        ih (fun x hx => h x (List.mem_cons_of_mem b hx))]
      rfl

/-- C8: the display rendering of a digest is exactly 56 characters, all
of them lowercase hex digits, two zero padded characters per byte with
no separators and no prefix. -/
theorem digest_display_hex56 (d : DigestBlake2b) :
    (DigestBlake2b.display d).length = 56 ∧
    (DigestBlake2b.display d).data.all isHexLc = true := by
  constructor
  · have h1 := foldr_hex_length d.bytes d.lt256
    rw [d.len28] at h1
    simpa [DigestBlake2b.display, String.length] using h1
  · simpa [DigestBlake2b.display] using foldr_hex_all d.bytes d.lt256

end Cardano

